import Mathlib

/-!
Verification of the per-guild audio queueing and playback coordinator.

The development shallowly embeds the playback/queue state machine:
the `AudioTrack` entity and its wall-clock position model
(`utils/track_manager.py`), the queue admission predicate and the
file-lifecycle bookkeeping (`TrackManager`), the per-guild rate limiter
(`cogs/music_state.py`), the play-next advance routine
(`cogs/music_playback.py`) and the absolute-seek command
(`cogs/music_commands.py`).  Wall-clock instants are rationals passed
explicitly; the filesystem is a list of existing paths; external
collaborators (voice transport, decoder, settings store) are read-only
environment flags.  Definitions come first, the theorems about them
follow.
-/

/-- Python truthiness of an optional string: `None` and the empty string
are falsy, every other string is truthy. -/
def truthyStr : Option String → Bool
  | none => false
  | some s => if s = "" then false else true

/-- Python truthiness of an optional wall-clock value: `None` and `0` are
falsy (`if not self.playback_start_time`). -/
def truthyTime : Option ℚ → Bool
  | none => false
  | some x => if x = 0 then false else true

/-- One queued or playing audio item, mirroring `AudioTrack.__init__`
(`utils/track_manager.py`).  `downloaded_path` is `none` until the track
is materialized; `playback_start_time` is the playback-clock anchor. -/
structure AudioTrack where
  url : String
  filename : String
  requester : String
  position : ℚ
  duration : ℚ
  downloaded_path : Option String
  file_size : ℕ
  last_accessed : ℚ
  volume : ℕ
  bitrate : Option ℕ
  playback_start_time : Option ℚ
  paused_position : ℚ
  is_paused : Bool
deriving DecidableEq

/-- The field values `AudioTrack.__init__` assigns to a fresh track. -/
def AudioTrack.new (url filename requester : String) (file_size : ℕ) (now : ℚ) : AudioTrack :=
  { url := url, filename := filename, requester := requester,
    position := 0, duration := 0, downloaded_path := none,
    file_size := file_size, last_accessed := now, volume := 100,
    bitrate := none, playback_start_time := none,
    paused_position := 0, is_paused := false }

/-- `AudioTrack.start_playback`: optionally overwrite `position`, anchor
the playback clock at `now - position`, clear the paused flag. -/
def AudioTrack.start_playback (t : AudioTrack) (now : ℚ) (position : Option ℚ) : AudioTrack :=
  let t1 := match position with
    | some p => { t with position := p }
    | none => t
  { t1 with playback_start_time := some (now - t1.position), is_paused := false }

/-- `AudioTrack.pause_playback`: if not paused and the clock anchor is
truthy, freeze `now - anchor` into `paused_position` and set the flag. -/
def AudioTrack.pause_playback (t : AudioTrack) (now : ℚ) : AudioTrack :=
  if t.is_paused = false ∧ truthyTime t.playback_start_time = true then
    { t with paused_position := now - t.playback_start_time.getD 0, is_paused := true }
  else t

/-- `AudioTrack.resume_playback`: if paused, re-anchor the clock at
`now - paused_position` and clear the flag. -/
def AudioTrack.resume_playback (t : AudioTrack) (now : ℚ) : AudioTrack :=
  if t.is_paused then
    { t with playback_start_time := some (now - t.paused_position), is_paused := false }
  else t

/-- `AudioTrack.get_current_position`: stored `position` when the clock
anchor is falsy, the frozen `paused_position` while paused, otherwise
`min (now - anchor) duration`. -/
def AudioTrack.get_current_position (t : AudioTrack) (now : ℚ) : ℚ :=
  if truthyTime t.playback_start_time = false then t.position
  else if t.is_paused then t.paused_position
  else min (now - t.playback_start_time.getD 0) t.duration

/-- `AudioTrack.cleanup`, with the filesystem passed as the list of
existing paths: when `downloaded_path` is truthy and the file exists,
remove the file and reset path, `position` and the playback-clock state;
otherwise do nothing (a missing file raises no error, and the removal in
the source is wrapped so the `finally` resets always run once the branch
is entered; removal is modelled as succeeding). -/
def AudioTrack.cleanup (t : AudioTrack) (fs : List String) : AudioTrack × List String :=
  if truthyStr t.downloaded_path = true ∧ t.downloaded_path.getD "" ∈ fs then
    ({ t with
        downloaded_path := none, position := 0, playback_start_time := none,
        paused_position := 0, is_paused := false },
     fs.erase (t.downloaded_path.getD ""))
  else (t, fs)

/-- The two `TrackManager` configuration limits consulted by queue
admission (`max_queue_size` is already in bytes, as `__init__` converts
`max_queue_size_mb * 1024 * 1024`). -/
structure TrackManager where
  max_queue_size : ℕ
  max_tracks : ℕ

/-- `TrackManager.get_queue_size`: total byte size of the queued tracks. -/
def get_queue_size (queue : List AudioTrack) : ℕ :=
  (queue.map AudioTrack.file_size).sum

/-- `TrackManager.can_add_to_queue`: reject when the cumulative size
would exceed `max_queue_size`, then when the track count has reached
`max_tracks`; otherwise accept. -/
def TrackManager.can_add_to_queue (tm : TrackManager) (queue : List AudioTrack)
    (file_size : ℕ) : Bool :=
  if get_queue_size queue + file_size > tm.max_queue_size then false
  else if queue.length ≥ tm.max_tracks then false
  else true

/-- `MusicState.check_rate_limit`: with the per-guild rate-limit map as a
function, return whether the action is allowed together with the updated
map.  A recorded timestamp less than 2 seconds old rejects without
touching the map; otherwise the map records `now` and the call allows. -/
def check_rate_limit (now : ℚ) (guild_id : ℕ) (rate_limits : ℕ → Option ℚ) :
    Bool × (ℕ → Option ℚ) :=
  match rate_limits guild_id with
  | some last =>
      if now - last < 2 then (false, rate_limits)
      else (true, fun g => if g = guild_id then some now else rate_limits g)
  | none => (true, fun g => if g = guild_id then some now else rate_limits g)

/-! ### The per-guild playback world

`World` flattens one guild's `GuildState` (`cogs/music_state.py`), the
track heap (tracks are Python objects, so the queue and `current_track`
hold ids into `tracks` — queue re-insertion aliases, it does not copy),
the `TrackManager` bookkeeping (active-file set, temp-folder contents
with creation times, reap throttle) and two observables: the number of
downloads performed and the log of stream stop/start events issued to
the voice client. -/

/-- A stream operation issued to the voice transport. -/
inductive StreamEvent
  | stop : StreamEvent
  | play : ℕ → StreamEvent
deriving DecidableEq

structure World where
  tracks : ℕ → AudioTrack
  queue : List ℕ
  current_track : Option ℕ
  volume : ℕ
  is_seeking : Bool
  last_activity : ℚ
  loop_enabled : Bool
  loop_count : ℕ
  max_loops : Option ℕ
  last_channel_id : Option ℕ
  active_files : List String
  fs_files : List String
  file_ctime : String → ℚ
  last_cleanup : ℚ
  alone_since : Option ℚ
  download_count : ℕ
  stream_log : List StreamEvent
  disconnected : Bool

/-- Read-only collaborators of one `play_next` call: settings-store
flags, voice-transport connectivity, per-track success of download,
decoder-stream construction and `voice_client.play`, and the
`TrackManager` configuration. -/
structure Env where
  autoplay : Bool
  autodisconnect : Bool
  voice_connected : Bool
  voice_playing : Bool
  download_ok : ℕ → Bool
  stream_ok : ℕ → Bool
  play_ok : ℕ → Bool
  temp_folder : String
  cleanup_interval : ℚ
  file_max_age : ℚ
  meta_duration : ℕ → ℚ
  meta_bitrate : ℕ → Option ℕ

/-- Point update of the track heap. -/
def setTrack (tracks : ℕ → AudioTrack) (i : ℕ) (t : AudioTrack) : ℕ → AudioTrack :=
  fun j => if j = i then t else tracks j

/-- `safe_filename` in `AudioTrack.download`: keep only alphanumerics,
`.`, `_`, `-` and space. -/
def sanitize_filename (s : String) : String :=
  String.mk (s.data.filter (fun c => c.isAlphanum || c ∈ ['.', '_', '-', ' ']))

/-- `os.path.join` for our purposes. -/
def path_join (dir f : String) : String := dir ++ "/" ++ f

/-- `TrackManager.mark_file_active`: no-op on a falsy path. -/
def mark_file_active (p : Option String) (w : World) : World :=
  if truthyStr p then { w with active_files := w.active_files.insert (p.getD "") } else w

/-- `TrackManager.mark_file_inactive`: no-op on a falsy path. -/
def mark_file_inactive (p : Option String) (w : World) : World :=
  if truthyStr p then { w with active_files := w.active_files.erase (p.getD "") } else w

/-- `TrackManager.cleanup_temp_files`: self-throttled on
`last_cleanup`; when it runs it deletes every temp file older than
`file_max_age` that is not in the active set (per-file errors are only
counted in the source, so deletion is modelled as succeeding). -/
def cleanup_temp_files (env : Env) (now : ℚ) (w : World) : World :=
  if now - w.last_cleanup < env.cleanup_interval then w
  else
    { w with
        last_cleanup := now,
        fs_files := w.fs_files.filter
          (fun f => f ∈ w.active_files || now - w.file_ctime f ≤ env.file_max_age) }

/-- `AudioTrack.download`: the sanitized destination path is stored
before the attempts; on success the file exists, the metadata sets
`duration` and `bitrate` (192 when the container reports none) and
`last_accessed` is refreshed; on retry exhaustion the partial file was
removed, so only the dangling path remains.  Success is decided by
`env.download_ok`; the download counter is the model's observable. -/
def download_attempt (env : Env) (now : ℚ) (tid : ℕ) (w : World) : World × Bool :=
  let t0 := w.tracks tid
  let p := path_join env.temp_folder (sanitize_filename t0.filename)
  if env.download_ok tid then
    let br := match env.meta_bitrate tid with
      | some b => if b = 0 then 192 else b
      | none => 192
    let t1 := { t0 with
        downloaded_path := some p, duration := env.meta_duration tid,
        bitrate := some br, last_accessed := now }
    ({ w with
        tracks := setTrack w.tracks tid t1,
        fs_files := w.fs_files.insert p,
        file_ctime := fun q => if q = p then now else w.file_ctime q,
        download_count := w.download_count + 1 }, true)
  else
    ({ w with tracks := setTrack w.tracks tid { t0 with downloaded_path := some p } }, false)

/-- Lossless-container check used by the bitrate fallback
(`track.downloaded_path.lower().endswith(('.flac', '.wav'))`). -/
def lossless_ext (p : String) : Bool :=
  p.toLower.endsWith ".flac" || p.toLower.endsWith ".wav"

/-- The bitrate resolution of `get_pcm_audio`: a truthy track bitrate is
clamped to 320; otherwise 320 for lossless extensions, else 192 (a track
reaching this point always has a downloaded path; the `none` fallback
only keeps the function total). -/
def resolve_bitrate (t : AudioTrack) : ℕ :=
  match t.bitrate with
  | some b =>
      if b = 0 then
        match t.downloaded_path with
        | some p => if lossless_ext p then 320 else 192
        | none => 192
      else min 320 b
  | none =>
      match t.downloaded_path with
      | some p => if lossless_ext p then 320 else 192
      | none => 192

/-- `MusicPlayback.get_pcm_audio`, state effects only: refresh
`last_accessed`, clamp `start_time` into `[0, duration]`, resolve the
bitrate, and — when the decoder stream is built successfully — stamp
`start_playback(start_time)` on the track.  The speed filter and the
volume transformer shape the audio, not the state. -/
def get_pcm_audio (env : Env) (now : ℚ) (tid : ℕ) (start_time : ℚ) (w : World) :
    World × Bool :=
  let t0 := w.tracks tid
  let t1 := { t0 with last_accessed := now }
  let st := max 0 (min start_time t1.duration)
  let t2 := { t1 with bitrate := some (resolve_bitrate t1) }
  if env.stream_ok tid then
    ({ w with tracks := setTrack w.tracks tid (t2.start_playback now (some st)) }, true)
  else
    ({ w with tracks := setTrack w.tracks tid t2 }, false)

/-- Step 2 of `play_next` (lines 167-185): with looping enabled and a
current track, either take the terminal transition when the incremented
`loop_count` reaches `max_loops` (disable looping, reset counters, no
re-queue) or re-insert the current track id at the front of the queue
(the increment persists in the non-terminal bounded case). -/
def loop_step (w : World) : World :=
  if w.loop_enabled then
    match w.current_track with
    | some tid =>
        match w.max_loops with
        | some m =>
            let lc := w.loop_count + 1
            if lc ≥ m then
              { w with loop_enabled := false, loop_count := 0, max_loops := none }
            else
              { w with loop_count := lc, queue := tid :: w.queue }
        | none => { w with queue := tid :: w.queue }
    | none => w
  else w

/-- Step 3 of `play_next` (lines 187-191): release the current track
unless a seek is in flight — mark its file inactive, run
`AudioTrack.cleanup` on the very same heap object (which the loop step
may just have aliased into the queue front), and clear the reference. -/
def cleanup_current_step (w : World) : World :=
  match w.current_track with
  | some tid =>
      if w.is_seeking then w
      else
        let w1 := mark_file_inactive ((w.tracks tid).downloaded_path) w
        let r := (w1.tracks tid).cleanup w1.fs_files
        { w1 with
            tracks := setTrack w1.tracks tid r.1, fs_files := r.2, current_track := none }
  | none => w

/-- The failure path shared by steps 7, 9 and 10 of `play_next`: mark
the track's file inactive, drop the reference. -/
def discard_current (w : World) : World :=
  match w.current_track with
  | some tid =>
      { (mark_file_inactive ((w.tracks tid).downloaded_path) w) with current_track := none }
  | none => { w with current_track := none }

/-- The body of one `MusicPlayback.play_next` entry, with the recursive
cascading-skip call abstracted as `retry` (the caller passes the
fuel-decremented recursion).  Order follows the source: activity touch
from `get_guild_state`, the `is_seeking` guard, loop handling, current
cleanup, empty-queue autodisconnect, the autoplay gate, the voice-client
check, pop and mark-active, lazy download, best-effort reap, stream
build at the stored position, and `voice_client.play` (success clears
the alone timer and logs the play). -/
def advance_step (env : Env) (now : ℚ) (force_play : Bool) (retry : World → World)
    (w0 : World) : World :=
  let w1 := { w0 with last_activity := now }
  if w1.is_seeking then w1
  else
    let w2 := cleanup_current_step (loop_step w1)
    if w2.queue.isEmpty then
      if env.autodisconnect && env.voice_connected then { w2 with disconnected := true }
      else w2
    else if !force_play && !env.autoplay then w2
    else if !env.voice_connected then w2
    else
      match w2.queue with
      | [] => w2
      | tid :: rest =>
        let w3 := { w2 with queue := rest, current_track := some tid }
        let w4 := mark_file_active ((w3.tracks tid).downloaded_path) w3
        let go : World → World := fun w5 =>
          let w6 := cleanup_temp_files env now w5
          let gp := get_pcm_audio env now tid ((w6.tracks tid).position) w6
          if gp.2 then
            if env.play_ok tid then
              { gp.1 with
                  alone_since := none,
                  stream_log := gp.1.stream_log ++ [StreamEvent.play tid] }
            else retry (discard_current gp.1)
          else retry (discard_current gp.1)
        if truthyStr ((w4.tracks tid).downloaded_path) = false then
          let dl := download_attempt env now tid w4
          if dl.2 then go { dl.1 with last_activity := now }
          else retry (discard_current dl.1)
        else go { w4 with last_activity := now }

/-- `play_next` with explicit fuel bounding the cascading-skip
recursion (each recursive entry finds `current_track = none` and a
strictly shorter queue, so `queue.length + 2` always suffices). -/
def play_next_fuel : ℕ → Env → ℚ → Bool → World → World
  | 0, _, _, _, w => w
  | fuel + 1, env, now, force_play, w =>
      advance_step env now force_play (play_next_fuel fuel env now force_play) w

/-- `MusicPlayback.play_next`. -/
def play_next (env : Env) (now : ℚ) (force_play : Bool) (w : World) : World :=
  play_next_fuel (w.queue.length + 2) env now force_play w

/-- The `after_playing` completion callback installed by `play_next`:
drop the alone timer, and re-enter `play_next` (with the default
`force_play = False`) unless a seek owns the stream. -/
def after_playing_completion (env : Env) (now : ℚ) (w : World) : World :=
  let w1 := { w with alone_since := none }
  if w1.is_seeking then w1 else play_next env now false w1

/-- Outcome reported to the user by a transport command. -/
inductive CmdOutcome
  | not_playing
  | invalid_time
  | invalid_position
  | not_connected
  | ok
  | errored
deriving DecidableEq

/-- `MusicCommands.timestamp` (absolute seek): require a current track,
validate the h/m/s ranges, reject a target at or past the duration,
require a connected voice client; only then set `is_seeking`, write the
new position onto the track, stop the running stream, rebuild the
decoder stream at the stored position and start it.  A failure inside
the try-block clears `is_seeking`; the `after_seeking` callback that
clears it on the success path fires asynchronously, after this call
returns. -/
def timestamp_cmd (env : Env) (now : ℚ) (hours minutes seconds : ℤ) (w : World) :
    World × CmdOutcome :=
  let w1 := { w with last_activity := now }
  match w1.current_track with
  | none => (w1, CmdOutcome.not_playing)
  | some tid =>
    if hours < 0 ∨ minutes < 0 ∨ seconds < 0 ∨ seconds ≥ 60 ∨ minutes ≥ 60 then
      (w1, CmdOutcome.invalid_time)
    else
      let new_position : ℤ := hours * 3600 + minutes * 60 + seconds
      if ((new_position : ℚ) ≥ (w1.tracks tid).duration) then
        (w1, CmdOutcome.invalid_position)
      else if !env.voice_connected then
        (w1, CmdOutcome.not_connected)
      else
        let w2 := { w1 with is_seeking := true }
        let w3 := { w2 with
            tracks := setTrack w2.tracks tid
              { w2.tracks tid with position := (new_position : ℚ) } }
        let w4 := if env.voice_playing then
            { w3 with stream_log := w3.stream_log ++ [StreamEvent.stop] }
          else w3
        let gp := get_pcm_audio env now tid ((w4.tracks tid).position) w4
        if gp.2 then
          if env.play_ok tid then
            ({ gp.1 with stream_log := gp.1.stream_log ++ [StreamEvent.play tid] },
              CmdOutcome.ok)
          else ({ gp.1 with is_seeking := false }, CmdOutcome.errored)
        else ({ gp.1 with is_seeking := false }, CmdOutcome.errored)

/-! ### Concrete instances used by counterexamples and witnesses -/

/-- A neutral world: empty queue, nothing playing, clean bookkeeping. -/
def base_world : World :=
  { tracks := fun _ => AudioTrack.new "" "" "" 0 0, queue := [], current_track := none,
    volume := 100, is_seeking := false, last_activity := 0, loop_enabled := false,
    loop_count := 0, max_loops := none, last_channel_id := none, active_files := [],
    fs_files := [], file_ctime := fun _ => 0, last_cleanup := 0, alone_since := none,
    download_count := 0, stream_log := [], disconnected := false }

/-- A benign environment: every collaborator succeeds, autoplay and
autodisconnect are on, the voice client is connected and playing. -/
def base_env : Env :=
  { autoplay := true, autodisconnect := true, voice_connected := true,
    voice_playing := true, download_ok := fun _ => true, stream_ok := fun _ => true,
    play_ok := fun _ => true, temp_folder := "temp", cleanup_interval := 3600,
    file_max_age := 3600, meta_duration := fun _ => 100, meta_bitrate := fun _ => none }

/-- Concrete track used by the claim C1 counterexample: duration 10. -/
def trackC1 : AudioTrack :=
  { AudioTrack.new "u" "song.mp3" "alice" 7 0 with duration := 10 }

/-- Concrete downloaded, mid-playback track for claim C2: accumulated
position 42, local file `temp/song.mp3`. -/
def trackC2 : AudioTrack :=
  { AudioTrack.new "u2" "song.mp3" "alice" 5 0 with
    duration := 200, position := 42, downloaded_path := some "temp/song.mp3",
    playback_start_time := some 800 }

/-- World for claim C2: `trackC2` is current, loop is enabled with no
`max_loops` (infinite), its file exists and is marked active. -/
def worldC2 : World :=
  { base_world with
    current_track := some 0, loop_enabled := true,
    tracks := setTrack base_world.tracks 0 trackC2,
    fs_files := ["temp/song.mp3"], active_files := ["temp/song.mp3"] }

/-- Concrete started, unpaused track used by the C5 witness. -/
def trackC5 : AudioTrack :=
  { AudioTrack.new "u" "b.mp3" "bob" 3 0 with
    duration := 30, playback_start_time := some 50, is_paused := false }

/-- Concrete current track for the C6 witness: duration 100. -/
def trackC6 : AudioTrack :=
  { AudioTrack.new "u6" "f.mp3" "fred" 8 0 with
    duration := 100, position := 11, downloaded_path := some "temp/f.mp3",
    playback_start_time := some 40 }

/-- World for the C6 witness: `trackC6` is current and playing. -/
def worldC6 : World :=
  { base_world with
    current_track := some 0,
    tracks := setTrack base_world.tracks 0 trackC6,
    fs_files := ["temp/f.mp3"], active_files := ["temp/f.mp3"],
    stream_log := [StreamEvent.play 0] }

/-- Concrete never-downloaded track with a nonzero position, used by the
claim C7 counterexample. -/
def trackC7 : AudioTrack :=
  { AudioTrack.new "u" "c.mp3" "carol" 9 0 with position := 5 }

/-- Witness for `C7_cleanup_spec`: a downloaded track whose file
exists. -/
def trackC7w : AudioTrack :=
  { AudioTrack.new "u" "d.mp3" "dan" 4 0 with
    position := 3, downloaded_path := some "temp/d.mp3" }

/-- World for the C8 witness: a seek is in flight. -/
def worldC8 : World :=
  { base_world with
    is_seeking := true, queue := [3, 4], current_track := some 3,
    loop_enabled := true, loop_count := 1, max_loops := some 5,
    active_files := ["temp/x.mp3"] }

/-- Concrete queue for the C9 witness: one 60-byte track, limits 100
bytes and 5 tracks. -/
def queueC9 : List AudioTrack := [AudioTrack.new "u" "e.mp3" "eve" 60 0]

/-- Concrete rate-limit map for the C10 witness: guild 5 last acted at
time 10. -/
def rateLimitsC10 : ℕ → Option ℚ := fun g => if g = 5 then some 10 else none

/-- Track 0 for the C3 witness: downloaded at `temp/a.mp3`. -/
def trackC3a : AudioTrack :=
  { AudioTrack.new "ua" "a.mp3" "ann" 4 0 with
    duration := 60, downloaded_path := some "temp/a.mp3" }

/-- Track 1 for the C3 witness: downloaded at `temp/b.mp3` (its stream
will fail to build). -/
def trackC3b : AudioTrack :=
  { AudioTrack.new "ub" "b.mp3" "ben" 4 0 with
    duration := 61, downloaded_path := some "temp/b.mp3" }

/-- Track 2 for the C3 witness: downloaded at `temp/c.mp3`. -/
def trackC3c : AudioTrack :=
  { AudioTrack.new "uc" "c.mp3" "cal" 4 0 with
    duration := 62, downloaded_path := some "temp/c.mp3" }

/-- World for the C3 witness: a 3-track queue, nothing playing. -/
def worldC3 : World :=
  { base_world with
    queue := [0, 1, 2],
    tracks := fun i => if i = 0 then trackC3a else if i = 1 then trackC3b else trackC3c,
    fs_files := ["temp/a.mp3", "temp/b.mp3", "temp/c.mp3"] }

/-- Environment for the C3 witness: stream construction fails exactly
for track id 1. -/
def envC3 : Env :=
  { base_env with stream_ok := fun i => if i = 1 then false else true }

/-- Looping track for the C4 witness: playing, downloaded. -/
def trackC4a : AudioTrack :=
  { AudioTrack.new "u0" "loop.mp3" "lee" 6 0 with
    duration := 50, downloaded_path := some "temp/loop.mp3",
    playback_start_time := some 30 }

/-- Next queued track for the C4 witness. -/
def trackC4b : AudioTrack :=
  { AudioTrack.new "u1" "next.mp3" "max" 7 0 with
    duration := 80, downloaded_path := some "temp/next.mp3" }

/-- World for the C4 witness: track 0 playing under loop with
`max_loops = 3`, track 1 queued next. -/
def worldC4 : World :=
  { base_world with
    queue := [1], current_track := some 0, loop_enabled := true, max_loops := some 3,
    tracks := fun i => if i = 0 then trackC4a else trackC4b,
    fs_files := ["temp/loop.mp3", "temp/next.mp3"],
    active_files := ["temp/loop.mp3"],
    stream_log := [StreamEvent.play 0] }

/-! ### General lemmas about the embedding -/

/-- One fuel unfolding of the advance recursion. -/
theorem play_next_fuel_succ (fuel : ℕ) (env : Env) (now : ℚ) (force_play : Bool)
    (w : World) :
    play_next_fuel (fuel + 1) env now force_play w =
      advance_step env now force_play (play_next_fuel fuel env now force_play) w := rfl

/-- `play_next` unfolds to one `advance_step` whose retry has one unit
of fuel less. -/
theorem play_next_eq (env : Env) (now : ℚ) (force_play : Bool) (w : World) :
    play_next env now force_play w =
      advance_step env now force_play
        (play_next_fuel (w.queue.length + 1) env now force_play) w := rfl

/-- A joined path is never the empty string. -/
theorem path_join_ne_empty (dir f : String) : path_join dir f ≠ "" := by
  intro h
  have hlen := congrArg String.length h
  rw [path_join] at hlen
  simp only [String.length_append] at hlen
  have hone : ("/" : String).length = 1 := rfl
  have hnil : ("" : String).length = 0 := rfl
  rw [hone, hnil] at hlen
  omega

/-- `cleanup` on a track whose guard fails (falsy path or file absent) is
the identity. -/
theorem cleanup_of_guard_false (t : AudioTrack) (fs : List String)
    (h : ¬ (truthyStr t.downloaded_path = true ∧ t.downloaded_path.getD "" ∈ fs)) :
    t.cleanup fs = (t, fs) := by
  unfold AudioTrack.cleanup
  exact if_neg h

/-- `cleanup` either did nothing or removed the stored path. -/
theorem cleanup_eq_or_path_none (t : AudioTrack) (fs : List String) :
    t.cleanup fs = (t, fs) ∨ (t.cleanup fs).1.downloaded_path = none := by
  unfold AudioTrack.cleanup
  split_ifs with h
  · right
    rfl
  · left
    rfl

/-! ### The claims -/

/-- Claim C1 counterexample: start `trackC1` (duration 10) at wall-clock
100 from position 0, pause at wall-clock 115.  While paused,
`get_current_position` returns the frozen snapshot 15, which exceeds the
duration 10, so the claimed invariant `position <= duration` fails at the
paused observation point. -/
theorem C1_counterexample :
    ((trackC1.start_playback 100 (some 0)).pause_playback 115).get_current_position 115 = 15 ∧
    trackC1.duration = 10 ∧ ¬ (15 : ℚ) ≤ 10 := by
  refine ⟨?_, by norm_num [trackC1], by norm_num⟩
  norm_num [trackC1, AudioTrack.new, AudioTrack.start_playback, AudioTrack.pause_playback,
    AudioTrack.get_current_position, truthyTime]

/-- Claim C1 (amended): after `start_playback` at a position `p` with
`0 ≤ p ≤ duration`, every later read while unpaused returns a value in
`[0, duration]` (the playing read is clamped), and the value read while
paused is still nonnegative — but it is the unclamped frozen snapshot,
which the counterexample shows can exceed the duration. -/
theorem C1_position_bounds (t : AudioTrack) (t0 t1 p : ℚ)
    (hp0 : 0 ≤ p) (hpd : p ≤ t.duration) (h01 : t0 ≤ t1) :
    (0 ≤ (t.start_playback t0 (some p)).get_current_position t1 ∧
      (t.start_playback t0 (some p)).get_current_position t1 ≤ t.duration) ∧
    0 ≤ ((t.start_playback t0 (some p)).pause_playback t1).get_current_position t1 := by
  have hd : 0 ≤ t.duration := le_trans hp0 hpd
  by_cases h0 : t0 - p = 0
  · constructor
    · constructor
      · simp [AudioTrack.start_playback, AudioTrack.get_current_position, truthyTime, h0, hp0]
      · simp [AudioTrack.start_playback, AudioTrack.get_current_position, truthyTime, h0, hpd]
    · simp [AudioTrack.start_playback, AudioTrack.pause_playback,
        AudioTrack.get_current_position, truthyTime, h0, hp0]
  · have helap : 0 ≤ t1 - (t0 - p) := by linarith
    constructor
    · constructor
      · simp only [AudioTrack.start_playback, AudioTrack.get_current_position, truthyTime]
        simp [h0, le_min_iff, helap, hd]
      · simp only [AudioTrack.start_playback, AudioTrack.get_current_position, truthyTime]
        simp [h0, min_le_right]
    · simp only [AudioTrack.start_playback, AudioTrack.pause_playback,
        AudioTrack.get_current_position, truthyTime]
      simp [h0, helap]

/-- Witness for `C1_position_bounds` at `trackC1`, `t0 = 100`, `t1 = 103`,
`p = 2`. -/
theorem C1_position_bounds_witness :
    ((0 : ℚ) ≤ 2 ∧ (2 : ℚ) ≤ trackC1.duration ∧ (100 : ℚ) ≤ 103) ∧
    ((0 ≤ (trackC1.start_playback 100 (some 2)).get_current_position 103 ∧
      (trackC1.start_playback 100 (some 2)).get_current_position 103 ≤ trackC1.duration) ∧
    0 ≤ ((trackC1.start_playback 100 (some 2)).pause_playback 103).get_current_position 103) :=
  ⟨⟨by norm_num, by norm_num [trackC1], by norm_num⟩,
    C1_position_bounds trackC1 100 103 2 (by norm_num) (by norm_num [trackC1]) (by norm_num)⟩

/-- Claim C5: for a started, unpaused track (anchor `a` with `0 < a`, as
wall-clock readings are positive), pausing at `t1` and resuming after an
arbitrary delay `d ≥ 0` reports at `t1 + d` exactly the position reported
at `t1` immediately before pausing: the paused interval does not accrue. -/
theorem C5_pause_resume_freezes (t : AudioTrack) (a t1 d : ℚ)
    (ha : t.playback_start_time = some a) (ha0 : 0 < a)
    (hpause : t.is_paused = false) (hd : 0 ≤ d) :
    ((t.pause_playback t1).resume_playback (t1 + d)).get_current_position (t1 + d) =
      t.get_current_position t1 := by
  have haz : a ≠ 0 := ne_of_gt ha0
  have had : a + d ≠ 0 := by positivity
  simp only [AudioTrack.pause_playback, AudioTrack.resume_playback,
    AudioTrack.get_current_position, truthyTime, ha, hpause]
  simp only [haz, if_false, ite_true, and_self, ite_false]
  simp only [Option.getD_some]
  have h1 : t1 + d - (t1 + d - (t1 - a)) = t1 - a := by ring
  have h2 : t1 + d - (t1 - a) = a + d := by ring
  simp [h2, had, h1, hpause]

/-- Witness for `C5_pause_resume_freezes` at anchor 50, pause at 80,
delay 7. -/
theorem C5_pause_resume_freezes_witness :
    trackC5.playback_start_time = some 50 ∧ (0 : ℚ) < 50 ∧ trackC5.is_paused = false ∧
    (0 : ℚ) ≤ 7 ∧
    ((trackC5.pause_playback 80).resume_playback (80 + 7)).get_current_position (80 + 7) =
      trackC5.get_current_position 80 :=
  ⟨rfl, by norm_num, rfl, by norm_num,
    C5_pause_resume_freezes trackC5 50 80 7 rfl (by norm_num) rfl (by norm_num)⟩

/-- Claim C7 counterexample: for a track that was never downloaded
(`downloaded_path = none`), `cleanup()` is a complete no-op — in
particular the position stays 5 instead of being reset to 0, because the
resets sit inside the branch guarded by the file being present. -/
theorem C7_counterexample :
    trackC7.downloaded_path = none ∧ trackC7.position = 5 ∧
    (trackC7.cleanup []).1.position = 5 ∧
    ¬ (trackC7.cleanup []).1.position = 0 := by
  refine ⟨rfl, rfl, ?_, ?_⟩ <;>
    norm_num [trackC7, AudioTrack.new, AudioTrack.cleanup, truthyStr]

/-- Claim C7 (amended): `cleanup()` deletes the file and resets
`position` and the playback-clock state exactly when the track has a
truthy `downloaded_path` naming an existing file; it is idempotent in
every case, and a missing or never-present file is not an error — the
call is then simply a no-op that resets nothing. -/
theorem C7_cleanup_spec (t : AudioTrack) (fs : List String) (hnd : fs.Nodup) :
    (AudioTrack.cleanup (t.cleanup fs).1 (t.cleanup fs).2 = t.cleanup fs) ∧
    (∀ p, t.downloaded_path = some p → p ≠ "" → p ∈ fs →
      ((t.cleanup fs).1.downloaded_path = none ∧
       (t.cleanup fs).1.position = 0 ∧
       (t.cleanup fs).1.playback_start_time = none ∧
       (t.cleanup fs).1.paused_position = 0 ∧
       (t.cleanup fs).1.is_paused = false ∧
       p ∉ (t.cleanup fs).2)) ∧
    (∀ p, t.downloaded_path = some p → p ∉ fs → t.cleanup fs = (t, fs)) ∧
    (t.downloaded_path = none → t.cleanup fs = (t, fs)) := by
  refine ⟨?_, ?_, ?_, ?_⟩
  · rcases cleanup_eq_or_path_none t fs with h | h
    · rw [h]
      exact h
    · have hid : (t.cleanup fs).1.cleanup (t.cleanup fs).2 = ((t.cleanup fs).1, (t.cleanup fs).2) :=
        cleanup_of_guard_false _ _ (by simp [truthyStr, h])
      rw [hid]
  · intro p hp hpne hpfs
    have hcond : truthyStr t.downloaded_path = true ∧ t.downloaded_path.getD "" ∈ fs := by
      constructor
      · simp [truthyStr, hp, hpne]
      · simp [hp, hpfs]
    unfold AudioTrack.cleanup
    rw [if_pos hcond]
    refine ⟨rfl, rfl, rfl, rfl, rfl, ?_⟩
    simp only [hp, Option.getD_some]
    exact hnd.not_mem_erase
  · intro p hp hpfs
    refine cleanup_of_guard_false t fs ?_
    rintro ⟨-, hmem⟩
    exact hpfs (by simpa [hp] using hmem)
  · intro hp
    exact cleanup_of_guard_false t fs (by simp [truthyStr, hp])

/-- Witness for `C7_cleanup_spec` at `trackC7w` and the filesystem
`["temp/d.mp3"]`. -/
theorem C7_cleanup_spec_witness :
    ["temp/d.mp3"].Nodup ∧
    ((trackC7w.cleanup ["temp/d.mp3"]).1.downloaded_path = none ∧
     (trackC7w.cleanup ["temp/d.mp3"]).1.position = 0 ∧
     (trackC7w.cleanup ["temp/d.mp3"]).1.playback_start_time = none ∧
     (trackC7w.cleanup ["temp/d.mp3"]).1.paused_position = 0 ∧
     (trackC7w.cleanup ["temp/d.mp3"]).1.is_paused = false ∧
     "temp/d.mp3" ∉ (trackC7w.cleanup ["temp/d.mp3"]).2) :=
  ⟨by decide,
    (C7_cleanup_spec trackC7w ["temp/d.mp3"] (by decide)).2.1 "temp/d.mp3"
      rfl (by decide) (by decide)⟩

/-- Claim C9: `can_add_to_queue` accepts exactly when the cumulative byte
size stays within `max_queue_size` and the track count stays below
`max_tracks`; in particular the exact boundary
`cumulative + size = max_queue_size` is accepted and any overshoot is
rejected.  Purity is inherent: the predicate is a function of its
arguments and touches no state. -/
theorem C9_can_add_to_queue_spec (tm : TrackManager) (queue : List AudioTrack)
    (file_size : ℕ) :
    (tm.can_add_to_queue queue file_size = true ↔
      get_queue_size queue + file_size ≤ tm.max_queue_size ∧
      queue.length < tm.max_tracks) ∧
    (get_queue_size queue + file_size = tm.max_queue_size →
      queue.length < tm.max_tracks → tm.can_add_to_queue queue file_size = true) ∧
    (get_queue_size queue + file_size > tm.max_queue_size →
      tm.can_add_to_queue queue file_size = false) := by
  refine ⟨?_, ?_, ?_⟩
  · unfold TrackManager.can_add_to_queue
    split_ifs with h1 h2
    · simp only [Bool.false_eq_true, false_iff]
      rintro ⟨hle, -⟩
      omega
    · simp only [Bool.false_eq_true, false_iff]
      rintro ⟨-, hlt⟩
      omega
    · simp only [true_iff]
      omega
  · intro hb hc
    unfold TrackManager.can_add_to_queue
    split_ifs <;> first | rfl | omega
  · intro hgt
    unfold TrackManager.can_add_to_queue
    split_ifs <;> first | rfl | omega

/-- Witness for `C9_can_add_to_queue_spec` at the exact byte boundary
`60 + 40 = 100`. -/
theorem C9_can_add_to_queue_spec_witness :
    get_queue_size queueC9 + 40 = (TrackManager.mk 100 5).max_queue_size ∧
    queueC9.length < (TrackManager.mk 100 5).max_tracks ∧
    (TrackManager.mk 100 5).can_add_to_queue queueC9 40 = true :=
  ⟨by decide, by decide,
    (C9_can_add_to_queue_spec (TrackManager.mk 100 5) queueC9 40).2.1 (by decide) (by decide)⟩

/-- Claim C10: a rejected `check_rate_limit` call (within the 2-second
window) leaves the rate-limit map untouched — only an allowed call writes
the new timestamp, and it writes exactly the calling guild's entry. -/
theorem C10_rate_limit_frame (now : ℚ) (guild_id : ℕ) (rate_limits : ℕ → Option ℚ) :
    ((check_rate_limit now guild_id rate_limits).1 = false →
      (check_rate_limit now guild_id rate_limits).2 = rate_limits ∧
      ∃ last, rate_limits guild_id = some last ∧ now - last < 2) ∧
    ((check_rate_limit now guild_id rate_limits).1 = true →
      (check_rate_limit now guild_id rate_limits).2 guild_id = some now) ∧
    (∀ g, g ≠ guild_id →
      (check_rate_limit now guild_id rate_limits).2 g = rate_limits g) := by
  unfold check_rate_limit
  rcases hg : rate_limits guild_id with _ | last <;> simp only [hg]
  · refine ⟨by simp, by simp, ?_⟩
    intro g hgn
    simp [hgn]
  · split_ifs with h
    · exact ⟨fun _ => ⟨rfl, last, rfl, h⟩, by simp, fun g hgn => rfl⟩
    · refine ⟨by simp, by simp, ?_⟩
      intro g hgn
      simp [hgn]

/-- Witness for `C10_rate_limit_frame`: at time 11 guild 5 is rejected
(1 second elapsed) and the map is returned unchanged. -/
theorem C10_rate_limit_frame_witness :
    (check_rate_limit 11 5 rateLimitsC10).1 = false ∧
    (check_rate_limit 11 5 rateLimitsC10).2 = rateLimitsC10 ∧
    ∃ last, rateLimitsC10 5 = some last ∧ (11 : ℚ) - last < 2 :=
  ⟨by norm_num [check_rate_limit, rateLimitsC10],
    ((C10_rate_limit_frame 11 5 rateLimitsC10).1
      (by norm_num [check_rate_limit, rateLimitsC10])).1,
    ((C10_rate_limit_frame 11 5 rateLimitsC10).1
      (by norm_num [check_rate_limit, rateLimitsC10])).2⟩

/-- Claim C8: when `is_seeking` is set, `play_next` returns at the guard
(only the `get_guild_state` activity touch happened): queue,
`current_track`, loop configuration and the active-file set are exactly
as before the call. -/
theorem C8_seek_guard_frame (env : Env) (now : ℚ) (force_play : Bool) (w : World)
    (h : w.is_seeking = true) :
    (play_next env now force_play w).queue = w.queue ∧
    (play_next env now force_play w).current_track = w.current_track ∧
    (play_next env now force_play w).loop_enabled = w.loop_enabled ∧
    (play_next env now force_play w).loop_count = w.loop_count ∧
    (play_next env now force_play w).max_loops = w.max_loops ∧
    (play_next env now force_play w).active_files = w.active_files := by
  have hs : play_next env now force_play w = { w with last_activity := now } := by
    rw [play_next_eq]
    unfold advance_step
    simp [h]
  rw [hs]
  exact ⟨rfl, rfl, rfl, rfl, rfl, rfl⟩

/-- Witness for `C8_seek_guard_frame` at `worldC8`. -/
theorem C8_seek_guard_frame_witness :
    worldC8.is_seeking = true ∧
    ((play_next base_env 500 false worldC8).queue = worldC8.queue ∧
     (play_next base_env 500 false worldC8).current_track = worldC8.current_track ∧
     (play_next base_env 500 false worldC8).loop_enabled = worldC8.loop_enabled ∧
     (play_next base_env 500 false worldC8).loop_count = worldC8.loop_count ∧
     (play_next base_env 500 false worldC8).max_loops = worldC8.max_loops ∧
     (play_next base_env 500 false worldC8).active_files = worldC8.active_files) :=
  ⟨rfl, C8_seek_guard_frame base_env 500 false worldC8 rfl⟩

/-- Claim C6: an absolute-seek request whose computed target
`h*3600 + m*60 + s` is at or beyond the current track's duration is
rejected with the user-facing invalid-position error, and neither the
track's stored position, nor `is_seeking`, nor the stream log changes. -/
theorem C6_timestamp_reject_frame (env : Env) (now : ℚ) (hours minutes seconds : ℤ)
    (w : World) (tid : ℕ) (hcur : w.current_track = some tid)
    (hh : 0 ≤ hours) (hm0 : 0 ≤ minutes) (hm : minutes < 60)
    (hs0 : 0 ≤ seconds) (hs : seconds < 60)
    (hdur : ((hours * 3600 + minutes * 60 + seconds : ℤ) : ℚ) ≥ (w.tracks tid).duration) :
    (timestamp_cmd env now hours minutes seconds w).2 = CmdOutcome.invalid_position ∧
    ((timestamp_cmd env now hours minutes seconds w).1.tracks tid).position =
      (w.tracks tid).position ∧
    (timestamp_cmd env now hours minutes seconds w).1.is_seeking = w.is_seeking ∧
    (timestamp_cmd env now hours minutes seconds w).1.stream_log = w.stream_log := by
  have hnotval : ¬ (hours < 0 ∨ minutes < 0 ∨ seconds < 0 ∨ seconds ≥ 60 ∨ minutes ≥ 60) := by
    push_neg
    exact ⟨hh, hm0, hs0, hs, hm⟩
  have key : timestamp_cmd env now hours minutes seconds w =
      ({ w with last_activity := now }, CmdOutcome.invalid_position) := by
    unfold timestamp_cmd
    simp only [hcur]
    rw [if_neg hnotval, if_pos hdur]
  rw [key]
  exact ⟨rfl, rfl, rfl, rfl⟩

/-- Witness for `C6_timestamp_reject_frame`: requesting 0:02:00 of a
100-second track (target 120 >= 100) at `worldC6`. -/
theorem C6_timestamp_reject_frame_witness :
    worldC6.current_track = some 0 ∧
    ((0 * 3600 + 2 * 60 + 0 : ℤ) : ℚ) ≥ (worldC6.tracks 0).duration ∧
    ((timestamp_cmd base_env 900 0 2 0 worldC6).2 = CmdOutcome.invalid_position ∧
     ((timestamp_cmd base_env 900 0 2 0 worldC6).1.tracks 0).position =
       (worldC6.tracks 0).position ∧
     (timestamp_cmd base_env 900 0 2 0 worldC6).1.is_seeking = worldC6.is_seeking ∧
     (timestamp_cmd base_env 900 0 2 0 worldC6).1.stream_log = worldC6.stream_log) :=
  ⟨rfl, by norm_num [worldC6, setTrack, trackC6, base_world, AudioTrack.new],
    C6_timestamp_reject_frame base_env 900 0 2 0 worldC6 0 rfl
      (by norm_num) (by norm_num) (by norm_num) (by norm_num) (by norm_num)
      (by norm_num [worldC6, setTrack, trackC6, base_world, AudioTrack.new])⟩

/-- Helper for claim C2 (symbolic): with loop enabled, no `max_loops`
(the infinite case) and a current track, the loop step re-inserts the
current id at the queue front and the cleanup step then wipes that same
aliased heap object: path cleared, position zeroed, file removed. -/
theorem loop_cleanup_aux (w : World) (tid : ℕ) (p : String)
    (hloop : w.loop_enabled = true) (hcur : w.current_track = some tid)
    (hml : w.max_loops = none) (hseek : w.is_seeking = false)
    (hpath : (w.tracks tid).downloaded_path = some p) (hp : p ≠ "")
    (hmem : p ∈ w.fs_files) :
    (cleanup_current_step (loop_step w)).queue = tid :: w.queue ∧
    ((cleanup_current_step (loop_step w)).tracks tid).downloaded_path = none ∧
    ((cleanup_current_step (loop_step w)).tracks tid).position = 0 ∧
    (cleanup_current_step (loop_step w)).fs_files = w.fs_files.erase p ∧
    (cleanup_current_step (loop_step w)).current_track = none := by
  have hls : loop_step w = { w with queue := tid :: w.queue } := by
    unfold loop_step
    simp [hloop, hcur, hml]
  rw [hls]
  unfold cleanup_current_step
  simp only [hcur, hseek]
  unfold AudioTrack.cleanup
  simp [mark_file_inactive, truthyStr, hpath, hp, hmem, setTrack]

/-- Helper for claim C2 (symbolic): running the full `play_next` once in
the same configuration (benign collaborators, reap throttled) ends with
the same track current again, but only after a fresh download — the
download counter rises and the restart position is the wiped one, not
the accumulated one. -/
theorem advance_infinite_loop_aux (env : Env) (now : ℚ) (force_play : Bool) (w : World)
    (tid : ℕ) (p : String)
    (hseek : w.is_seeking = false) (hloop : w.loop_enabled = true)
    (hcur : w.current_track = some tid) (hml : w.max_loops = none)
    (hq : w.queue = []) (hpath : (w.tracks tid).downloaded_path = some p)
    (hp : p ≠ "") (hmem : p ∈ w.fs_files)
    (hap : env.autoplay = true) (hvc : env.voice_connected = true)
    (hdl : env.download_ok tid = true)
    (hth : now - w.last_cleanup < env.cleanup_interval)
    (hsok : env.stream_ok tid = true) (hpok : env.play_ok tid = true) :
    (play_next env now force_play w).current_track = some tid ∧
    (play_next env now force_play w).download_count = w.download_count + 1 ∧
    (play_next env now force_play w).queue = [] ∧
    ((play_next env now force_play w).tracks tid).downloaded_path =
      some (path_join env.temp_folder (sanitize_filename (w.tracks tid).filename)) ∧
    ((play_next env now force_play w).tracks tid).position =
      max 0 (min 0 (env.meta_duration tid)) := by
  simp [play_next, play_next_fuel, advance_step, loop_step, cleanup_current_step,
    mark_file_inactive, mark_file_active, AudioTrack.cleanup, truthyStr, setTrack,
    discard_current, download_attempt, cleanup_temp_files, get_pcm_audio,
    AudioTrack.start_playback, hseek, hloop, hcur, hml, hq, hpath, hp, hmem,
    hap, hvc, hdl, hth, hsok, hpok]

/-- Claim C2 counterexample: at `worldC2` (loop enabled, infinite;
current track 0 downloaded at `temp/song.mp3`, position 42), the loop
decision re-inserts id 0 at the queue front, but the cleanup step then
runs on that very aliased object: afterwards the front track's file is
gone and its position is 0, not 42 — and the full routine re-downloads
it (the download counter rises from 0 to 1), contradicting "still holds
its downloaded local file and its accumulated position ... without
re-downloading". -/
theorem C2_counterexample :
    (cleanup_current_step (loop_step worldC2)).queue = [0] ∧
    ((cleanup_current_step (loop_step worldC2)).tracks 0).downloaded_path = none ∧
    ((cleanup_current_step (loop_step worldC2)).tracks 0).position = 0 ∧
    ¬ (((cleanup_current_step (loop_step worldC2)).tracks 0).downloaded_path =
        some "temp/song.mp3" ∧
       ((cleanup_current_step (loop_step worldC2)).tracks 0).position = 42) ∧
    (play_next base_env 1000 false worldC2).download_count = 1 ∧
    (play_next base_env 1000 false worldC2).current_track = some 0 := by
  obtain ⟨hq1, hpath1, hpos1, hfs1, hcur1⟩ :=
    loop_cleanup_aux worldC2 0 "temp/song.mp3" rfl rfl rfl rfl rfl (by decide) (by decide)
  obtain ⟨hc2, hdc2, hq2, hpath2, hpos2⟩ :=
    advance_infinite_loop_aux base_env 1000 false worldC2 0 "temp/song.mp3"
      rfl rfl rfl rfl rfl rfl (by decide) (by decide) rfl rfl rfl
      (by norm_num [worldC2, base_world, base_env]) rfl rfl
  refine ⟨hq1, hpath1, hpos1, ?_, ?_, hc2⟩
  · rintro ⟨hbad, -⟩
    rw [hpath1] at hbad
    exact Option.noConfusion hbad
  · rw [hdc2]
    rfl

/-- Claim C2 (amended): with loop enabled and a non-terminal decision
(here the infinite case), the current track id is re-inserted at the
front of the queue, but the routine's cleanup step then runs on the same
aliased object: after the cleanup step the front-of-queue track has lost
its local file (path cleared, file deleted) and its position is reset to
0 — so the next pop cannot reuse the stored file: the full routine
re-downloads the same track (download counter rises) and replays it with
the wiped position, not the accumulated one. -/
theorem C2_loop_cleanup_wipes (env : Env) (now : ℚ) (force_play : Bool) (w : World)
    (tid : ℕ) (p : String)
    (hseek : w.is_seeking = false) (hloop : w.loop_enabled = true)
    (hcur : w.current_track = some tid) (hml : w.max_loops = none)
    (hq : w.queue = []) (hpath : (w.tracks tid).downloaded_path = some p)
    (hp : p ≠ "") (hmem : p ∈ w.fs_files)
    (hap : env.autoplay = true) (hvc : env.voice_connected = true)
    (hdl : env.download_ok tid = true)
    (hth : now - w.last_cleanup < env.cleanup_interval)
    (hsok : env.stream_ok tid = true) (hpok : env.play_ok tid = true) :
    ((cleanup_current_step (loop_step w)).queue = tid :: w.queue ∧
     ((cleanup_current_step (loop_step w)).tracks tid).downloaded_path = none ∧
     ((cleanup_current_step (loop_step w)).tracks tid).position = 0 ∧
     (cleanup_current_step (loop_step w)).fs_files = w.fs_files.erase p) ∧
    ((play_next env now force_play w).current_track = some tid ∧
     (play_next env now force_play w).download_count = w.download_count + 1) := by
  obtain ⟨h1, h2, h3, h4, -⟩ :=
    loop_cleanup_aux w tid p hloop hcur hml hseek hpath hp hmem
  obtain ⟨h5, h6, -, -, -⟩ :=
    advance_infinite_loop_aux env now force_play w tid p hseek hloop hcur hml hq
      hpath hp hmem hap hvc hdl hth hsok hpok
  exact ⟨⟨h1, h2, h3, h4⟩, h5, h6⟩

/-- Witness for `C2_loop_cleanup_wipes` at `worldC2`, `base_env`,
wall-clock 1000. -/
theorem C2_loop_cleanup_wipes_witness :
    (worldC2.loop_enabled = true ∧ worldC2.current_track = some 0 ∧
     worldC2.max_loops = none ∧ worldC2.is_seeking = false ∧
     (worldC2.tracks 0).downloaded_path = some "temp/song.mp3" ∧
     "temp/song.mp3" ∈ worldC2.fs_files) ∧
    (((cleanup_current_step (loop_step worldC2)).queue = 0 :: worldC2.queue ∧
      ((cleanup_current_step (loop_step worldC2)).tracks 0).downloaded_path = none ∧
      ((cleanup_current_step (loop_step worldC2)).tracks 0).position = 0 ∧
      (cleanup_current_step (loop_step worldC2)).fs_files =
        worldC2.fs_files.erase "temp/song.mp3") ∧
     ((play_next base_env 1000 false worldC2).current_track = some 0 ∧
      (play_next base_env 1000 false worldC2).download_count =
        worldC2.download_count + 1)) :=
  ⟨⟨rfl, rfl, rfl, rfl, rfl, by decide⟩,
    C2_loop_cleanup_wipes base_env 1000 false worldC2 0 "temp/song.mp3"
      rfl rfl rfl rfl rfl rfl (by decide) (by decide) rfl rfl rfl
      (by norm_num [worldC2, base_world, base_env]) rfl rfl⟩

set_option maxHeartbeats 4000000 in
/-- Claim C3: from a 3-track queue (ids 0, 1, 2, all downloaded) with
nothing playing, a forced `play_next` starts track 0; its natural
completion re-enters the routine, which releases track 0 (file deleted,
position reset, unmarked active), pops track 1, fails to build its
stream, discards it (marked inactive, not current) and cascades to
track 2, which ends up current — the queue does not stall on the one bad
item. -/
theorem C3_cascade_skip (env : Env) (n1 n2 : ℚ) (w : World) (p1 p2 p3 : String)
    (hq : w.queue = [0, 1, 2]) (hcur : w.current_track = none)
    (hseek : w.is_seeking = false) (hloop : w.loop_enabled = false)
    (hp1 : (w.tracks 0).downloaded_path = some p1) (hp1ne : p1 ≠ "")
    (hp1fs : p1 ∈ w.fs_files)
    (hp2 : (w.tracks 1).downloaded_path = some p2) (hp2ne : p2 ≠ "")
    (hp3 : (w.tracks 2).downloaded_path = some p3) (hp3ne : p3 ≠ "")
    (hact : w.active_files = []) (hlog : w.stream_log = [])
    (hap : env.autoplay = true) (hvc : env.voice_connected = true)
    (hs0 : env.stream_ok 0 = true) (hs1 : env.stream_ok 1 = false)
    (hs2 : env.stream_ok 2 = true)
    (hpl0 : env.play_ok 0 = true) (hpl2 : env.play_ok 2 = true)
    (hth1 : n1 - w.last_cleanup < env.cleanup_interval)
    (hth2 : n2 - w.last_cleanup < env.cleanup_interval) :
    (play_next env n1 true w).current_track = some 0 ∧
    (play_next env n1 true w).stream_log = [StreamEvent.play 0] ∧
    (after_playing_completion env n2 (play_next env n1 true w)).current_track = some 2 ∧
    ((after_playing_completion env n2 (play_next env n1 true w)).tracks 0).downloaded_path
      = none ∧
    ((after_playing_completion env n2 (play_next env n1 true w)).tracks 0).position = 0 ∧
    (after_playing_completion env n2 (play_next env n1 true w)).fs_files =
      w.fs_files.erase p1 ∧
    (after_playing_completion env n2 (play_next env n1 true w)).active_files = [p3] ∧
    ((after_playing_completion env n2 (play_next env n1 true w)).tracks 1).downloaded_path
      = some p2 ∧
    (after_playing_completion env n2 (play_next env n1 true w)).queue = [] ∧
    (after_playing_completion env n2 (play_next env n1 true w)).stream_log =
      [StreamEvent.play 0, StreamEvent.play 2] := by
  simp [play_next, play_next_fuel, advance_step, after_playing_completion, loop_step,
    cleanup_current_step, mark_file_inactive, mark_file_active, AudioTrack.cleanup,
    truthyStr, setTrack, discard_current, download_attempt, cleanup_temp_files,
    get_pcm_audio, AudioTrack.start_playback, List.insert,
    hq, hcur, hseek, hloop, hp1, hp1ne, hp1fs, hp2, hp2ne, hp3, hp3ne, hact, hlog,
    hap, hvc, hs0, hs1, hs2, hpl0, hpl2, hth1, hth2]

/-- Witness for `C3_cascade_skip`: three downloaded tracks, stream
construction failing exactly for id 1, times 10 and 20. -/
theorem C3_cascade_skip_witness :
    (worldC3.queue = [0, 1, 2] ∧ worldC3.current_track = none ∧
     worldC3.is_seeking = false ∧ worldC3.loop_enabled = false ∧
     (worldC3.tracks 0).downloaded_path = some "temp/a.mp3" ∧
     (worldC3.tracks 1).downloaded_path = some "temp/b.mp3" ∧
     (worldC3.tracks 2).downloaded_path = some "temp/c.mp3" ∧
     "temp/a.mp3" ∈ worldC3.fs_files ∧
     envC3.stream_ok 0 = true ∧ envC3.stream_ok 1 = false ∧ envC3.stream_ok 2 = true) ∧
    ((play_next envC3 10 true worldC3).current_track = some 0 ∧
     (play_next envC3 10 true worldC3).stream_log = [StreamEvent.play 0] ∧
     (after_playing_completion envC3 20 (play_next envC3 10 true worldC3)).current_track
       = some 2 ∧
     ((after_playing_completion envC3 20
         (play_next envC3 10 true worldC3)).tracks 0).downloaded_path = none ∧
     ((after_playing_completion envC3 20
         (play_next envC3 10 true worldC3)).tracks 0).position = 0 ∧
     (after_playing_completion envC3 20 (play_next envC3 10 true worldC3)).fs_files =
       worldC3.fs_files.erase "temp/a.mp3" ∧
     (after_playing_completion envC3 20 (play_next envC3 10 true worldC3)).active_files =
       ["temp/c.mp3"] ∧
     ((after_playing_completion envC3 20
         (play_next envC3 10 true worldC3)).tracks 1).downloaded_path = some "temp/b.mp3" ∧
     (after_playing_completion envC3 20 (play_next envC3 10 true worldC3)).queue = [] ∧
     (after_playing_completion envC3 20 (play_next envC3 10 true worldC3)).stream_log =
       [StreamEvent.play 0, StreamEvent.play 2]) :=
  ⟨⟨rfl, rfl, rfl, rfl, rfl, rfl, rfl, by decide, rfl, rfl, rfl⟩,
    C3_cascade_skip envC3 10 20 worldC3 "temp/a.mp3" "temp/b.mp3" "temp/c.mp3"
      rfl rfl rfl rfl rfl (by decide) (by decide) rfl (by decide) rfl (by decide)
      rfl rfl rfl rfl rfl rfl rfl rfl rfl
      (by norm_num [worldC3, base_world, envC3, base_env])
      (by norm_num [worldC3, base_world, envC3, base_env])⟩

set_option maxHeartbeats 4000000 in
/-- Claim C4: with looping enabled, `max_loops = 3` and `loop_count = 0`
while track 0 plays (its start already logged), three successive natural
completions replay track 0 twice more — `loop_count` rising to 1 then 2 —
and on the third completion the counter reaches `max_loops`: looping is
disabled, the counters reset (`loop_count = 0`, `max_loops = none`), the
track is not re-queued, and the next distinct queue item (track 1)
becomes current.  The stream log then shows track 0 started exactly 3
times before track 1; every replay re-downloads the file the cleanup step
deleted, so the download counter rose by 2. -/
theorem C4_loop_three_times (env : Env) (n1 n2 n3 : ℚ) (w : World) (p0 p1 : String)
    (hq : w.queue = [1]) (hcur : w.current_track = some 0)
    (hseek : w.is_seeking = false) (hloop : w.loop_enabled = true)
    (hml : w.max_loops = some 3) (hlc : w.loop_count = 0)
    (hp0 : (w.tracks 0).downloaded_path = some p0) (hp0ne : p0 ≠ "")
    (hp0fs : p0 ∈ w.fs_files)
    (hp1 : (w.tracks 1).downloaded_path = some p1) (hp1ne : p1 ≠ "")
    (hlog : w.stream_log = [StreamEvent.play 0])
    (hap : env.autoplay = true) (hvc : env.voice_connected = true)
    (hdl : env.download_ok 0 = true)
    (hs0 : env.stream_ok 0 = true) (hs1 : env.stream_ok 1 = true)
    (hpl0 : env.play_ok 0 = true) (hpl1 : env.play_ok 1 = true)
    (hth1 : n1 - w.last_cleanup < env.cleanup_interval)
    (hth2 : n2 - w.last_cleanup < env.cleanup_interval)
    (hth3 : n3 - w.last_cleanup < env.cleanup_interval) :
    (after_playing_completion env n1 w).current_track = some 0 ∧
    (after_playing_completion env n1 w).loop_count = 1 ∧
    (after_playing_completion env n1 w).loop_enabled = true ∧
    (after_playing_completion env n2
      (after_playing_completion env n1 w)).current_track = some 0 ∧
    (after_playing_completion env n2
      (after_playing_completion env n1 w)).loop_count = 2 ∧
    (after_playing_completion env n2
      (after_playing_completion env n1 w)).loop_enabled = true ∧
    (after_playing_completion env n3 (after_playing_completion env n2
      (after_playing_completion env n1 w))).current_track = some 1 ∧
    (after_playing_completion env n3 (after_playing_completion env n2
      (after_playing_completion env n1 w))).loop_enabled = false ∧
    (after_playing_completion env n3 (after_playing_completion env n2
      (after_playing_completion env n1 w))).loop_count = 0 ∧
    (after_playing_completion env n3 (after_playing_completion env n2
      (after_playing_completion env n1 w))).max_loops = none ∧
    (after_playing_completion env n3 (after_playing_completion env n2
      (after_playing_completion env n1 w))).queue = [] ∧
    (after_playing_completion env n3 (after_playing_completion env n2
      (after_playing_completion env n1 w))).stream_log =
      [StreamEvent.play 0, StreamEvent.play 0, StreamEvent.play 0, StreamEvent.play 1] ∧
    (after_playing_completion env n3 (after_playing_completion env n2
      (after_playing_completion env n1 w))).download_count = w.download_count + 2 := by
  simp [after_playing_completion, play_next, play_next_fuel, advance_step, loop_step,
    cleanup_current_step, mark_file_inactive, mark_file_active, AudioTrack.cleanup,
    truthyStr, setTrack, discard_current, download_attempt, cleanup_temp_files,
    get_pcm_audio, AudioTrack.start_playback, path_join_ne_empty,
    List.mem_insert_self, List.mem_insert_iff,
    hq, hcur, hseek, hloop, hml, hlc, hp0, hp0ne, hp0fs, hp1, hp1ne, hlog,
    hap, hvc, hdl, hs0, hs1, hpl0, hpl1, hth1, hth2, hth3]

/-- Witness for `C4_loop_three_times` at `worldC4`, times 10, 20, 30. -/
theorem C4_loop_three_times_witness :
    (worldC4.queue = [1] ∧ worldC4.current_track = some 0 ∧
     worldC4.loop_enabled = true ∧ worldC4.max_loops = some 3 ∧
     worldC4.loop_count = 0 ∧
     (worldC4.tracks 0).downloaded_path = some "temp/loop.mp3" ∧
     "temp/loop.mp3" ∈ worldC4.fs_files ∧
     (worldC4.tracks 1).downloaded_path = some "temp/next.mp3" ∧
     worldC4.stream_log = [StreamEvent.play 0]) ∧
    ((after_playing_completion base_env 10 worldC4).current_track = some 0 ∧
     (after_playing_completion base_env 10 worldC4).loop_count = 1 ∧
     (after_playing_completion base_env 20
       (after_playing_completion base_env 10 worldC4)).current_track = some 0 ∧
     (after_playing_completion base_env 20
       (after_playing_completion base_env 10 worldC4)).loop_count = 2 ∧
     (after_playing_completion base_env 30 (after_playing_completion base_env 20
       (after_playing_completion base_env 10 worldC4))).current_track = some 1 ∧
     (after_playing_completion base_env 30 (after_playing_completion base_env 20
       (after_playing_completion base_env 10 worldC4))).loop_enabled = false ∧
     (after_playing_completion base_env 30 (after_playing_completion base_env 20
       (after_playing_completion base_env 10 worldC4))).loop_count = 0 ∧
     (after_playing_completion base_env 30 (after_playing_completion base_env 20
       (after_playing_completion base_env 10 worldC4))).max_loops = none ∧
     (after_playing_completion base_env 30 (after_playing_completion base_env 20
       (after_playing_completion base_env 10 worldC4))).queue = [] ∧
     (after_playing_completion base_env 30 (after_playing_completion base_env 20
       (after_playing_completion base_env 10 worldC4))).stream_log =
       [StreamEvent.play 0, StreamEvent.play 0, StreamEvent.play 0, StreamEvent.play 1] ∧
     (after_playing_completion base_env 30 (after_playing_completion base_env 20
       (after_playing_completion base_env 10 worldC4))).download_count =
       worldC4.download_count + 2) := by
  obtain ⟨c1, c2, c3, c4, c5, c6, c7, c8, c9, c10, c11, c12, c13⟩ :=
    C4_loop_three_times base_env 10 20 30 worldC4 "temp/loop.mp3" "temp/next.mp3"
      rfl rfl rfl rfl rfl rfl rfl (by decide) (by decide) rfl (by decide) rfl
      rfl rfl rfl rfl rfl rfl rfl
      (by norm_num [worldC4, base_world, base_env])
      (by norm_num [worldC4, base_world, base_env])
      (by norm_num [worldC4, base_world, base_env])
  exact ⟨⟨rfl, rfl, rfl, rfl, rfl, rfl, by decide, rfl, rfl⟩,
    c1, c2, c4, c5, c7, c8, c9, c10, c11, c12, c13⟩
